import Mathlib

/-!
Verification of the telemetry instrumentation pipeline of a small Go HTTP
service (`main.go`): key extraction from a connection descriptor, the
startup telemetry-client lifecycle, the request middleware, and the
per-endpoint instrumentation points.

The Go code is shallowly embedded: pure string helpers become Lean string
functions, the global `telemetryClient` plus the records handed to
`Track` become an explicit `ServerState` threaded through the handlers,
and `time.Now()` becomes reads of an abstract clock `Nat → Int`
(nanosecond readings; a monotone clock is a hypothesis where needed).
-/

namespace AzureApp

/-! ### Key Extractor (`parseInstrumentationKey`, main.go:42-50) -/

/-- Model of Go `strings.Split(s, ";")` at the character level (exact for
a single-ASCII-character separator on valid UTF-8): split the character
list around every occurrence of `sep`.  Like Go, the empty input yields
one empty segment and a trailing separator yields a trailing empty
segment. -/
def splitSeg (sep : Char) : List Char → List (List Char)
  | [] => [[]]
  | c :: cs =>
      if c = sep then [] :: splitSeg sep cs
      else
        match splitSeg sep cs with
        | [] => [[c]]
        | h :: t => (c :: h) :: t

/-- Model of Go `strings.Split` on strings: segment the character data
and repack each segment as a string. -/
def goSplit (s : String) (sep : Char) : List String :=
  (splitSeg sep s.data).map (fun cs => String.mk cs)

/-- Model of Go `strings.HasPrefix s p`. -/
def goHasPre (s p : String) : Bool :=
  p.data.isPrefixOf s.data

/-- Model of Go `strings.TrimPrefix`: drop `p` from the front of `s` when
`s` starts with it, otherwise return `s` unchanged. -/
def trimLeading (s p : String) : String :=
  if goHasPre s p then String.mk (s.data.drop p.data.length) else s

/-- The `for _, part := range parts` loop of `parseInstrumentationKey`:
returns on the first segment starting with the literal
`InstrumentationKey=`, else falls through to `""`. -/
def parseIKLoop : List String → String
  | [] => ""
  | part :: rest =>
      if goHasPre part "InstrumentationKey=" then
        trimLeading part "InstrumentationKey="
      else parseIKLoop rest

/-- Embedding of `parseInstrumentationKey` (main.go:42-50): split the
connection string on `";"` (Go `strings.Split`) and scan for the first
`InstrumentationKey=` segment. -/
def parseInstrumentationKey (connectionString : String) : String :=
  parseIKLoop (goSplit connectionString ';')

/-- Formalisation of the claim's words for the Key Extractor, independent
of the loop structure of the code: among the `";"`-separated segments,
find the first that begins with `InstrumentationKey=` and return the
remainder after that literal, verbatim; if none does, return `""`. -/
def extractKeySpec (descriptor : String) : String :=
  match (goSplit descriptor ';').find?
      (fun seg => goHasPre seg "InstrumentationKey=") with
  | some seg => String.mk (seg.data.drop "InstrumentationKey=".data.length)
  | none => ""

/-! ### Telemetry Client Lifecycle (`initTelemetry`, main.go:53-72) -/

/-- Outcome of running `initTelemetry`.  `panicked` models a Go runtime
panic escaping the function (there is no `recover` anywhere in the
program, so a panic kills the process before the server listens). -/
inductive InitOutcome
  | disabled
  | panicked
  | enabled (key endpoint logLine : String)
deriving DecidableEq

/-- The hardcoded backend endpoint URL set on the telemetry
configuration (main.go:67). -/
def endpointUrl : String := "https://dc.applicationinsights.azure.com/v2/track"

/-- Embedding of `initTelemetry` (main.go:53-72).  Empty connection
string or empty extracted key → early return with the client left nil
(`disabled`).  Otherwise the code builds the client and then logs
`instrumentationKey[:8]+"..."`; Go string slicing `s[:8]` panics when
`len(s) < 8` bytes (`String.utf8ByteSize` is exactly Go's `len` on
strings), which aborts the process.  The logged prefix of the
enabled-path log line is modelled with `String.take 8`, which agrees
with Go's byte slicing on ASCII keys. -/
def initTelemetry (connectionString : String) : InitOutcome :=
  if connectionString = "" then .disabled
  else
    let instrumentationKey := parseInstrumentationKey connectionString
    if instrumentationKey = "" then .disabled
    else if instrumentationKey.utf8ByteSize < 8 then .panicked
    else .enabled instrumentationKey endpointUrl
        (instrumentationKey.take 8 ++ "...")

/-! ### Data model for the server (main.go:14-36, 38-39) -/

/-- The resolved configuration (`Config` struct, main.go:14-36), with the
nested Go struct flattened into one record. -/
structure Config where
  serverHost : String
  serverPort : Int
  serverMode : String
  appName : String
  appVersion : String
  appEnvironment : String
  appDebug : Bool
  azureConnectionString : String
  loggingLevel : String
  loggingFormat : String

/-- The parts of a `*gin.Context` the instrumentation reads:
`c.Request.Method`, `c.Request.URL.String()`, `c.Request.UserAgent()`
and the matched route pattern `c.FullPath()`. -/
structure HttpRequest where
  method : String
  url : String
  userAgent : String
  fullPath : String

/-- JSON-like values, enough for the `gin.H` response bodies the two
handlers build. -/
inductive JsonValue
  | str (s : String)
  | int (n : Int)
  | bool (b : Bool)
  | obj (fields : List (String × JsonValue))

/-- An HTTP response as the handlers produce it: the status code written
by `c.JSON` and the body.  The status is a Go `int`. -/
structure HttpResponse where
  status : Int
  body : JsonValue

/-- An enabled Application Insights client: bound to one instrumentation
key and one endpoint URL (main.go:65-69). -/
structure EnabledClient where
  key : String
  endpoint : String

/-- The global `telemetryClient` (main.go:39): `none` is the Go nil
(Disabled) client. -/
abbrev TelemetryClient := Option EnabledClient

/-- Model of Go `duration.Seconds()` on a nanosecond count: division by
1e9, as an exact rational (the Go float64 conversion is a monotone,
sign-preserving image of this value). -/
def secondsOf (durationNs : Int) : Rat := (durationNs : Rat) / 1000000000

/-- The three telemetry record shapes the program constructs and hands
to `telemetryClient.Track`. -/
inductive TelemetryRecord
  | request (method url : String) (durationNs : Int) (responseCode : String)
      (properties : List (String × String))
  | event (name : String) (properties : List (String × String))
  | metric (name : String) (value : Rat) (properties : List (String × String))

/-- The state the request-handling code touches: the global client
handle and the list of records handed to `Track` so far, in order. -/
structure ServerState where
  client : TelemetryClient
  sent : List TelemetryRecord

/-- Model of `telemetryClient.Track(r)`: hand one record to the backend
transport. -/
def track (s : ServerState) (r : TelemetryRecord) : ServerState :=
  { s with sent := s.sent ++ [r] }

/-! ### Record constructors appearing in the code -/

/-- The event built at main.go:134-137. -/
def helloEventRecord (cfg : Config) : TelemetryRecord :=
  .event "hello_endpoint_called"
    [("app_name", cfg.appName), ("version", cfg.appVersion),
     ("environment", cfg.appEnvironment)]

/-- The metric built at main.go:156-158 from the handler's own elapsed
nanoseconds. -/
def helloMetricRecord (durationNs : Int) : TelemetryRecord :=
  .metric "hello_response_time" (secondsOf durationNs) [("endpoint", "/hello")]

/-- The event built at main.go:166-167. -/
def configEventRecord : TelemetryRecord :=
  .event "config_endpoint_accessed" [("debug_mode", "true")]

/-- The request record built by the middleware at main.go:112-121:
method, full URL, elapsed duration, status code rendered by
`fmt.Sprintf` with the decimal verb (modelled by `toString` on `Int`),
and the three string properties. -/
def middlewareRequestRecord (cfg : Config) (req : HttpRequest)
    (durationNs : Int) (status : Int) : TelemetryRecord :=
  .request req.method req.url durationNs (toString status)
    [("route", req.fullPath), ("user_agent", req.userAgent),
     ("app_version", cfg.appVersion)]

/-! ### Handlers and middleware (main.go:103-191) -/

/-- The business response of the `/hello` handler (main.go:144-152):
status 200 and the `gin.H` body; `ts` is the `time.Now().Unix()` read
made while building the body. -/
def helloBusinessResponse (cfg : Config) (ts : Int) : HttpResponse :=
  { status := 200,
    body := .obj
      [("message", .str "Ok"), ("app_name", .str cfg.appName),
       ("version", .str cfg.appVersion),
       ("environment", .str cfg.appEnvironment), ("timestamp", .int ts)] }

/-- The business response of the `/config` handler (main.go:171-189):
status 200 and the nested `gin.H` body, including the telemetry block
with the `enabled` flag and the full extracted instrumentation key. -/
def configBusinessResponse (cfg : Config) : HttpResponse :=
  { status := 200,
    body := .obj
      [("server", .obj
          [("host", .str cfg.serverHost), ("port", .int cfg.serverPort),
           ("mode", .str cfg.serverMode)]),
       ("app", .obj
          [("name", .str cfg.appName), ("version", .str cfg.appVersion),
           ("environment", .str cfg.appEnvironment),
           ("debug", .bool cfg.appDebug)]),
       ("telemetry", .obj
          [("enabled", .bool (cfg.azureConnectionString != "")),
           ("instrumentation_key",
             .str (parseInstrumentationKey cfg.azureConnectionString))])] }

/-- The `/hello` handler (main.go:129-161), with `time.Now()` reads
taken from the abstract clock starting at index `i`: reads its own
start time, emits the event if the client is set, sleeps (no clock
read), reads the body timestamp, writes the response, and emits the
metric with its own elapsed time if the client is set.  Returns the
updated state, the response, and the next unused clock index. -/
def helloHandler (cfg : Config) (clock : Nat → Int) (i : Nat)
    (s : ServerState) : ServerState × HttpResponse × Nat :=
  let start := clock i
  let s1 :=
    match s.client with
    | none => s
    | some _ => track s (helloEventRecord cfg)
  let response := helloBusinessResponse cfg (clock (i + 1))
  match s1.client with
  | none => (s1, response, i + 2)
  | some _ =>
      (track s1 (helloMetricRecord (clock (i + 2) - start)), response, i + 3)

/-- The `/config` handler (main.go:164-190): emits its event if the
client is set and writes the config dump; it reads no clock. -/
def configHandler (cfg : Config) (s : ServerState) :
    ServerState × HttpResponse :=
  let s1 :=
    match s.client with
    | none => s
    | some _ => track s configEventRecord
  (s1, configBusinessResponse cfg)

/-- The request middleware (main.go:103-125), wrapping an arbitrary
downstream chain: read a start time, run the downstream (which consumes
clock indices from `i + 1`), and, if the client is set afterwards,
build the request record from the elapsed time and the downstream
response's status and hand it to `Track`. -/
def requestMiddleware (cfg : Config) (req : HttpRequest)
    (clock : Nat → Int)
    (downstream : Nat → ServerState → ServerState × HttpResponse × Nat)
    (i : Nat) (s : ServerState) : ServerState × HttpResponse × Nat :=
  let start := clock i
  let r := downstream (i + 1) s
  let s1 := r.1
  let resp := r.2.1
  let j := r.2.2
  match s1.client with
  | none => (s1, resp, j)
  | some _ =>
      (track s1 (middlewareRequestRecord cfg req (clock j - start) resp.status),
       resp, j + 1)

/-- One full request to `/api/v1/hello`: the middleware wrapping the
hello handler. -/
def helloExchange (cfg : Config) (req : HttpRequest) (clock : Nat → Int)
    (i : Nat) (s : ServerState) : ServerState × HttpResponse × Nat :=
  requestMiddleware cfg req clock (fun j t => helloHandler cfg clock j t) i s

/-- One full request to `/api/v1/config`: the middleware wrapping the
config handler (which reads no clock). -/
def configExchange (cfg : Config) (req : HttpRequest) (clock : Nat → Int)
    (i : Nat) (s : ServerState) : ServerState × HttpResponse × Nat :=
  requestMiddleware cfg req clock
    (fun j t =>
      let r := configHandler cfg t
      (r.1, r.2, j)) i s

/-! ### The `main` startup sequence (main.go:92-197) -/

/-- The successive phases of `main`, in program order.  Only
`initTelemetryPhase` can write the global `telemetryClient`;
`listenPhase` is `r.Run(address)`, after which the server accepts
connections. -/
inductive MainPhase
  | loadConfigPhase
  | initTelemetryPhase
  | setModePhase
  | useMiddleware
  | registerHello
  | registerConfigRoute
  | listenPhase (address : String)

/-- The phase list of `main` (main.go:92-197): the `/config` route is
registered only when the environment is `"development"` (main.go:163),
and the listen address is `fmt.Sprintf("%s:%d", host, port)`
(main.go:194). -/
def mainPhases (cfg : Config) : List MainPhase :=
  [.loadConfigPhase, .initTelemetryPhase, .setModePhase, .useMiddleware,
   .registerHello]
  ++ (if cfg.appEnvironment = "development" then [.registerConfigRoute] else [])
  ++ [.listenPhase (cfg.serverHost ++ ":" ++ toString cfg.serverPort)]

/-- Which phases write the global `telemetryClient`. -/
def phaseWritesClient : MainPhase → Bool
  | .initTelemetryPhase => true
  | _ => false

/-- Which phase is `r.Run`. -/
def isListenPhase : MainPhase → Bool
  | .listenPhase _ => true
  | _ => false

/-- The route patterns registered under the `/api/v1` group, as a
function of the configuration (main.go:127-192). -/
def registeredRoutes (cfg : Config) : List String :=
  ["/api/v1/hello"]
  ++ (if cfg.appEnvironment = "development" then ["/api/v1/config"] else [])

/-- Field lookup in a JSON object (none on non-objects). -/
def jsonField : JsonValue → String → Option JsonValue
  | .obj fields, k => fields.lookup k
  | _, _ => none

/-! ### Concrete fixtures for witnesses -/

/-- A concrete configuration with telemetry configured. -/
def cfg0 : Config :=
  { serverHost := "localhost", serverPort := 8080, serverMode := "debug",
    appName := "azure-app", appVersion := "1.0.0",
    appEnvironment := "development", appDebug := true,
    azureConnectionString := "InstrumentationKey=ABCDEFGH12345",
    loggingLevel := "info", loggingFormat := "json" }

/-- A concrete request to the hello endpoint. -/
def req0 : HttpRequest :=
  { method := "GET", url := "/api/v1/hello?x=1", userAgent := "curl/8.0",
    fullPath := "/api/v1/hello" }

/-- A concrete enabled client. -/
def client0 : EnabledClient :=
  { key := "ABCDEFGH12345", endpoint := endpointUrl }

/-- A concrete downstream chain for exercising the middleware on its
own: it leaves the state's records alone, sets an enabled client, and
answers with the hello business response at timestamp 5, consuming no
clock indices beyond reporting index 7 as the next unused one. -/
def downstream0 : Nat → ServerState → ServerState × HttpResponse × Nat :=
  fun _ t => ({ client := some client0, sent := t.sent },
    helloBusinessResponse cfg0 5, 7)

/-! ### Theorems -/

/-- Helper: the extraction loop computes find-the-first-matching-segment
and drop-the-literal. -/
theorem parseIKLoop_eq_find (ps : List String) :
    parseIKLoop ps =
      (match ps.find? (fun seg => goHasPre seg "InstrumentationKey=") with
        | some seg => String.mk (seg.data.drop "InstrumentationKey=".data.length)
        | none => "") := by
  induction ps with
  | nil => rfl
  | cons p rest ih =>
      cases h : goHasPre p "InstrumentationKey=" with
      | false => simp [parseIKLoop, List.find?, h, ih]
      | true => simp [parseIKLoop, List.find?, h, trimLeading]

/-- C1: for every descriptor, `parseInstrumentationKey` returns, verbatim
and untrimmed, the remainder after `InstrumentationKey=` of the first
`";"`-separated segment beginning with that literal, and `""` when no
segment begins with it; in particular on the empty descriptor, on
segments that merely contain the literal, on trailing `";"`, on a
first-of-two match, and with inner whitespace kept verbatim. -/
theorem parseInstrumentationKey_spec :
    (∀ d : String, parseInstrumentationKey d = extractKeySpec d) ∧
    parseInstrumentationKey "" = "" ∧
    parseInstrumentationKey "A=1;XInstrumentationKey=zz" = "" ∧
    parseInstrumentationKey "Foo=bar;" = "" ∧
    parseInstrumentationKey "InstrumentationKey=AAA;InstrumentationKey=BBB" = "AAA" ∧
    parseInstrumentationKey "InstrumentationKey= A A " = " A A " := by
  refine ⟨fun d => ?_, by decide, by decide, by decide, by decide, by decide⟩
  simpa [extractKeySpec] using parseIKLoop_eq_find (goSplit d ';')

/-- C2 (code bug): `initTelemetry` is not panic-free.  On the descriptor
`"InstrumentationKey=abc"` the extracted key `"abc"` is non-empty but
shorter than 8 bytes, so the log statement's slice `instrumentationKey[:8]`
panics and the process dies before the server ever listens. -/
theorem initTelemetry_panics_on_short_key :
    initTelemetry "InstrumentationKey=abc" = InitOutcome.panicked := by decide

/-- C3 (code bug): the spec's three examples behave as claimed — empty
descriptor and `"Foo=bar"` give a Disabled client, and a long key gives
an Enabled client bound to exactly the extracted key and the hardcoded
endpoint — but the claimed "otherwise Enabled" branch is not total: a
non-empty key shorter than 8 bytes (here `"k"`) makes `initTelemetry`
panic instead of yielding an Enabled client. -/
theorem initTelemetry_outcomes :
    initTelemetry "" = InitOutcome.disabled ∧
    initTelemetry "Foo=bar" = InitOutcome.disabled ∧
    initTelemetry "InstrumentationKey=ABCDEFGH12345"
      = InitOutcome.enabled "ABCDEFGH12345" endpointUrl "ABCDEFGH..." ∧
    initTelemetry "InstrumentationKey=k" = InitOutcome.panicked := by
  refine ⟨by decide, by decide, ?_, by decide⟩
  decide

/-- C4: with a Disabled client (`telemetryClient` nil), a full request
through the middleware and the `/hello` handler performs zero `Track`
calls (the record list handed to the transport is unchanged) and the
response is exactly the business response, status 200 and body
included. -/
theorem disabled_client_zero_telemetry (cfg : Config) (req : HttpRequest)
    (clock : Nat → Int) (i : Nat) (sent : List TelemetryRecord) :
    (helloExchange cfg req clock i ⟨none, sent⟩).1.sent = sent ∧
    (helloExchange cfg req clock i ⟨none, sent⟩).2.1
      = helloBusinessResponse cfg (clock (i + 2)) := by
  exact ⟨rfl, rfl⟩

/-- C5: with an Enabled client, one request to `/hello` hands exactly
three records to the transport, in order the `hello_endpoint_called`
event, the `hello_response_time` metric, and the middleware's request
record; under a monotone clock the request duration and the metric
value are non-negative. -/
theorem enabled_hello_emits_three_records (cfg : Config) (req : HttpRequest)
    (clock : Nat → Int) (i : Nat) (c : EnabledClient)
    (sent : List TelemetryRecord)
    (hmono : ∀ a b : Nat, a ≤ b → clock a ≤ clock b) :
    (helloExchange cfg req clock i ⟨some c, sent⟩).1.sent
      = sent ++ [helloEventRecord cfg,
                 helloMetricRecord (clock (i + 3) - clock (i + 1)),
                 middlewareRequestRecord cfg req (clock (i + 4) - clock i) 200]
    ∧ 0 ≤ clock (i + 4) - clock i
    ∧ 0 ≤ secondsOf (clock (i + 3) - clock (i + 1)) := by
  refine ⟨?_, ?_, ?_⟩
  · simp [helloExchange, requestMiddleware, helloHandler, track,
      helloBusinessResponse]
  · have h := hmono i (i + 4) (by omega)
    omega
  · have h := hmono (i + 1) (i + 3) (by omega)
    have h0 : (0 : Int) ≤ clock (i + 3) - clock (i + 1) := by omega
    exact div_nonneg (by exact_mod_cast h0) (by norm_num)

/-- Witness for C5 at a concrete configuration, request, identity clock
and empty record list. -/
theorem enabled_hello_emits_three_records_witness :
    (helloExchange cfg0 req0 (fun n => (n : Int)) 0 ⟨some client0, []⟩).1.sent
      = [] ++ [helloEventRecord cfg0, helloMetricRecord ((3 : Int) - 1),
               middlewareRequestRecord cfg0 req0 ((4 : Int) - 0) 200]
    ∧ (0 : Int) ≤ (4 : Int) - 0
    ∧ 0 ≤ secondsOf ((3 : Int) - 1) := by
  exact enabled_hello_emits_three_records cfg0 req0 (fun n => (n : Int)) 0
    client0 [] (fun a b h => Int.ofNat_le.mpr h)

/-- C6: whenever the client is Enabled after the downstream chain runs,
the middleware appends exactly one request record carrying the
request's method, its full URL, the elapsed duration between its two
clock reads, the decimal rendering of the downstream response's status
code, and the `route` / `user_agent` / `app_version` properties; the
response is passed through untouched. -/
theorem middleware_request_record_shape (cfg : Config) (req : HttpRequest)
    (clock : Nat → Int)
    (ds : Nat → ServerState → ServerState × HttpResponse × Nat)
    (i : Nat) (s : ServerState) (c : EnabledClient)
    (hc : ((ds (i + 1) s).1).client = some c) :
    (requestMiddleware cfg req clock ds i s).1.sent
      = (ds (i + 1) s).1.sent
        ++ [TelemetryRecord.request req.method req.url
              (clock ((ds (i + 1) s).2.2) - clock i)
              (toString ((ds (i + 1) s).2.1.status))
              [("route", req.fullPath), ("user_agent", req.userAgent),
               ("app_version", cfg.appVersion)]]
    ∧ (requestMiddleware cfg req clock ds i s).2.1 = (ds (i + 1) s).2.1 := by
  constructor <;> simp [requestMiddleware, hc, track, middlewareRequestRecord]

/-- Witness for C6 on a concrete downstream chain that enables the
client and answers with the hello business response. -/
theorem middleware_request_record_shape_witness :
    (requestMiddleware cfg0 req0 (fun n => (n : Int)) downstream0 0
        ⟨none, []⟩).1.sent
      = [] ++ [TelemetryRecord.request "GET" "/api/v1/hello?x=1"
                 ((7 : Int) - 0) (toString (200 : Int))
                 [("route", "/api/v1/hello"), ("user_agent", "curl/8.0"),
                  ("app_version", "1.0.0")]]
    ∧ (requestMiddleware cfg0 req0 (fun n => (n : Int)) downstream0 0
        ⟨none, []⟩).2.1 = helloBusinessResponse cfg0 5 := by
  exact middleware_request_record_shape cfg0 req0 (fun n => (n : Int))
    downstream0 0 ⟨none, []⟩ client0 rfl

/-- C7: the telemetry decision is invisible in the HTTP responses: for
any two client states (Disabled, or Enabled with any key) and otherwise
identical runs, the `/hello` and `/config` responses — status code and
body — are identical; only the side-channel record list differs. -/
theorem telemetry_state_never_changes_response (cfg : Config)
    (req : HttpRequest) (clock : Nat → Int) (i : Nat)
    (c1 c2 : TelemetryClient) (sent1 sent2 : List TelemetryRecord) :
    (helloExchange cfg req clock i ⟨c1, sent1⟩).2.1
      = (helloExchange cfg req clock i ⟨c2, sent2⟩).2.1
    ∧ (configExchange cfg req clock i ⟨c1, sent1⟩).2.1
      = (configExchange cfg req clock i ⟨c2, sent2⟩).2.1 := by
  cases c1 <;> cases c2 <;> exact ⟨rfl, rfl⟩

/-- C8: in `main`'s phase sequence the only phase that writes the
global `telemetryClient` is the single `initTelemetry` call, and it
lies strictly before `r.Run`; afterwards every request-handling step
(`/hello` and `/config` exchanges) leaves the client untouched, so the
Enabled/Disabled state is invariant across requests. -/
theorem client_decided_once_before_listen (cfg : Config)
    (req : HttpRequest) (clock : Nat → Int) (i : Nat) (s : ServerState) :
    (mainPhases cfg).countP phaseWritesClient = 1
    ∧ ((mainPhases cfg).takeWhile
        (fun p => !(isListenPhase p))).countP phaseWritesClient = 1
    ∧ (helloExchange cfg req clock i s).1.client = s.client
    ∧ (configExchange cfg req clock i s).1.client = s.client := by
  refine ⟨?_, ?_, ?_, ?_⟩
  · by_cases h : cfg.appEnvironment = "development" <;>
      simp [mainPhases, h, phaseWritesClient]
  · by_cases h : cfg.appEnvironment = "development" <;>
      simp [mainPhases, h, phaseWritesClient, isListenPhase]
  · rcases s with ⟨cl, sent⟩
    cases cl <;> rfl
  · rcases s with ⟨cl, sent⟩
    cases cl <;> rfl

/-- C9: under a monotone clock and an Enabled client, the middleware's
start read happens before the handler's own timer read, its duration
read happens after the handler's metric read, and consequently the
duration stored in the request record dominates the interval stored in
the `hello_response_time` metric. -/
theorem middleware_duration_dominates_handler_metric (cfg : Config)
    (req : HttpRequest) (clock : Nat → Int) (i : Nat) (c : EnabledClient)
    (sent : List TelemetryRecord)
    (hmono : ∀ a b : Nat, a ≤ b → clock a ≤ clock b) :
    (helloExchange cfg req clock i ⟨some c, sent⟩).1.sent
      = sent ++ [helloEventRecord cfg,
                 helloMetricRecord (clock (i + 3) - clock (i + 1)),
                 middlewareRequestRecord cfg req (clock (i + 4) - clock i) 200]
    ∧ clock i ≤ clock (i + 1)
    ∧ clock (i + 3) - clock (i + 1) ≤ clock (i + 4) - clock i := by
  refine ⟨?_, hmono i (i + 1) (by omega), ?_⟩
  · simp [helloExchange, requestMiddleware, helloHandler, track,
      helloBusinessResponse]
  · have h1 := hmono i (i + 1) (by omega)
    have h2 := hmono (i + 3) (i + 4) (by omega)
    omega

/-- Witness for C9 at the identity clock. -/
theorem middleware_duration_dominates_handler_metric_witness :
    (helloExchange cfg0 req0 (fun n => (n : Int)) 0 ⟨some client0, []⟩).1.sent
      = [] ++ [helloEventRecord cfg0, helloMetricRecord ((3 : Int) - 1),
               middlewareRequestRecord cfg0 req0 ((4 : Int) - 0) 200]
    ∧ ((0 : Nat) : Int) ≤ ((1 : Nat) : Int)
    ∧ (3 : Int) - 1 ≤ (4 : Int) - 0 := by
  exact middleware_duration_dominates_handler_metric cfg0 req0
    (fun n => (n : Int)) 0 client0 [] (fun a b h => Int.ofNat_le.mpr h)

/-- C10: when the environment is `"development"` the `/api/v1/config`
route is registered (and only then), and its response body's
`telemetry` object always carries the full, untruncated instrumentation
key — exactly `parseInstrumentationKey` of the configured descriptor —
next to an `enabled` flag that is true precisely when the descriptor is
non-empty. -/
theorem config_route_exposes_full_key (cfg : Config) (s : ServerState) :
    ("/api/v1/config" ∈ registeredRoutes cfg
        ↔ cfg.appEnvironment = "development")
    ∧ jsonField (configHandler cfg s).2.body "telemetry"
        = some (JsonValue.obj
            [("enabled", JsonValue.bool (cfg.azureConnectionString != "")),
             ("instrumentation_key",
               JsonValue.str
                 (parseInstrumentationKey cfg.azureConnectionString))])
    ∧ ((cfg.azureConnectionString != "") = true
        ↔ cfg.azureConnectionString ≠ "") := by
  refine ⟨?_, rfl, ?_⟩
  · by_cases h : cfg.appEnvironment = "development" <;>
      simp [registeredRoutes, h]
  · simp [bne_iff_ne]

end AzureApp
